import Mathlib

/-!
Shallow embedding of the C0-microSD+ host utility library
(`src/c/lib/C0microSDPlusHostUtils.c` and
`src/c/include/C0microSDPlusConstants.h`).

The library performs block-device I/O through POSIX primitives
(open, lseek, read, write, close).  We model the operating-system
environment of one device path as a `Dev`: whether `open` succeeds,
whether `lseek`/`read`/`write` report an OS-level error, and the byte
content of the seekable backing store (a regular file standing in for
the block device).  Each raw transaction returns an outcome record
capturing the C function's return value (`ssize_t`, modelled as `Int`),
the bytes transferred, the offset and size it requested of the OS, and
the observable events: whether a file descriptor was opened, whether it
was closed before returning, and whether `perror` was invoked.
-/

namespace C0microSDPlus

/-- Constants from `C0microSDPlusConstants.h`, enum `SignaloidSoCConstants`. -/
def kSignaloidSoCConstantsCommandOffset : Int := 0x01000000

def kSignaloidSoCConstantsConfigOffset : Int := 0x01000004

def kSignaloidSoCConstantsBootAddressOffset : Int := 0x01000008

def kSignaloidSoCConstantsStatusOffset : Int := 0x0100000C

def kSignaloidSoCConstantsMMIOBufferOffset : Int := 0x01004000

def kSignaloidSoCConstantsMMIOBufferSizeBytes : Nat := 8192

def kSignaloidSoCConstantsMMIOBufferSizeWords : Nat := 2048

/-- The `SignaloidSoCStatus` C enum has a 32-bit integer representation and
the code reinterprets the raw register bytes as this type, so we model it
as the raw 32-bit value. -/
abbrev SignaloidSoCStatus := Nat

def kSignaloidSoCStatusWaitingForCommand : SignaloidSoCStatus := 0

def kSignaloidSoCStatusCalculating : SignaloidSoCStatus := 1

def kSignaloidSoCStatusDone : SignaloidSoCStatus := 2

def kSignaloidSoCStatusInvalidCommand : SignaloidSoCStatus := 3

/-- OS-side model of one device path: whether `open` succeeds, whether
`lseek`, `read` or `write` report an OS-level error, and the bytes of the
seekable backing store. -/
structure Dev where
  openable : Bool
  seekErr : Bool
  readErr : Bool
  writeErr : Bool
  store : List Nat
deriving DecidableEq

/-- Outcome of one raw read transaction: the `ssize_t` return value, the
bytes placed in `destBuffer`, the offset/size requested of the OS, and the
observable events (fd opened, fd closed before return, `perror` called). -/
structure ReadOutcome where
  ret : Int
  data : List Nat
  offsetUsed : Int
  sizeRequested : Nat
  fdOpened : Bool
  fdClosed : Bool
  errReported : Bool
deriving DecidableEq

/-- Outcome of one raw write transaction: the `ssize_t` return value, the
backing store after the call, the offset/size requested of the OS, and the
observable events (fd opened, fd closed before return, `perror` called). -/
structure WriteOutcome where
  ret : Int
  newStore : List Nat
  offsetUsed : Int
  sizeRequested : Nat
  fdOpened : Bool
  fdClosed : Bool
  errReported : Bool
deriving DecidableEq

/-- POSIX `write` of `buf` at byte position `off` into a regular file whose
content is `store`: bytes before `off` are kept, a gap past end-of-file is
zero-filled, the buffer overwrites `buf.length` bytes, and the remainder of
the old content is kept. -/
def writeBytesAt (store : List Nat) (off : Nat) (buf : List Nat) : List Nat :=
  store.take off ++ List.replicate (off - store.length) 0 ++ buf
    ++ store.drop (off + buf.length)

/-- `hostUtilsReadFromC0microSDPlus` (C0microSDPlusHostUtils.c:36-70):
open the device read-only (return -1 if that fails), `lseek` to `offset`
(on failure `perror`, close, return -1), `read` `bufferSize` bytes
(comparing the result against `bufferSize` and calling `perror` when they
differ), close, and return the `read` result.  A POSIX read past available
data returns the (smaller) number of bytes actually read; an OS-level read
error returns -1. -/
def hostUtilsReadFromC0microSDPlus (dev : Dev) (bufferSize : Nat)
    (offset : Int) : ReadOutcome :=
  if !dev.openable then
    { ret := -1, data := [], offsetUsed := offset, sizeRequested := bufferSize
      fdOpened := false, fdClosed := false, errReported := true }
  else if offset < 0 || dev.seekErr then
    { ret := -1, data := [], offsetUsed := offset, sizeRequested := bufferSize
      fdOpened := true, fdClosed := true, errReported := true }
  else if dev.readErr then
    { ret := -1, data := [], offsetUsed := offset, sizeRequested := bufferSize
      fdOpened := true, fdClosed := true, errReported := true }
  else
    let data := (dev.store.drop offset.toNat).take bufferSize
    { ret := (data.length : Int), data := data, offsetUsed := offset
      sizeRequested := bufferSize, fdOpened := true, fdClosed := true
      errReported := decide ((data.length : Int) ≠ (bufferSize : Int)) }

/-- `hostUtilsWriteToC0microSDPlus` (C0microSDPlusHostUtils.c:72-106):
open the device write-only (return -1 if that fails), `lseek` to `offset`
(on failure `perror`, close, return -1), `write` the source buffer
(comparing the result against `bufferSize` and calling `perror` when they
differ), close, and return the `write` result.  The source buffer is
modelled as the exact byte list to be written, so `bufferSize` is its
length; a successful write to a regular file transfers all of it. -/
def hostUtilsWriteToC0microSDPlus (dev : Dev) (sourceBuffer : List Nat)
    (offset : Int) : WriteOutcome :=
  if !dev.openable then
    { ret := -1, newStore := dev.store, offsetUsed := offset
      sizeRequested := sourceBuffer.length
      fdOpened := false, fdClosed := false, errReported := true }
  else if offset < 0 || dev.seekErr then
    { ret := -1, newStore := dev.store, offsetUsed := offset
      sizeRequested := sourceBuffer.length
      fdOpened := true, fdClosed := true, errReported := true }
  else if dev.writeErr then
    { ret := -1, newStore := dev.store, offsetUsed := offset
      sizeRequested := sourceBuffer.length
      fdOpened := true, fdClosed := true, errReported := true }
  else
    { ret := (sourceBuffer.length : Int)
      newStore := writeBytesAt dev.store offset.toNat sourceBuffer
      offsetUsed := offset, sizeRequested := sourceBuffer.length
      fdOpened := true, fdClosed := true, errReported := false }

/-- Little-endian decoding of 4 bytes into the `uint32_t` they represent in
host memory (the library runs on little-endian hosts; any fixed byte order
that `encodeLE32` inverts models the `uint32_t` ↔ memory reinterpretation). -/
def decodeLE32 : List Nat → Nat
  | [b0, b1, b2, b3] => b0 + 256 * b1 + 65536 * b2 + 16777216 * b3
  | _ => 0

/-- Little-endian encoding of a 32-bit value into the 4 bytes occupied by a
`uint32_t` variable in host memory. -/
def encodeLE32 (v : Nat) : List Nat :=
  [v % 256, v / 256 % 256, v / 65536 % 256, v / 16777216 % 256]

/-- The raw transaction issued by `hostUtilsReadSignaloidSoCMMIOBuffer`
(C0microSDPlusHostUtils.c:108-117). -/
def hostUtilsReadSignaloidSoCMMIOBufferTx (dev : Dev) : ReadOutcome :=
  hostUtilsReadFromC0microSDPlus dev kSignaloidSoCConstantsMMIOBufferSizeBytes
    kSignaloidSoCConstantsMMIOBufferOffset

/-- `hostUtilsReadSignaloidSoCMMIOBuffer`: read the 8192-byte MMIO buffer;
`exit(EXIT_FAILURE)` (modelled as `none`) when the raw transaction result
differs from the requested size. -/
def hostUtilsReadSignaloidSoCMMIOBuffer (dev : Dev) : Option (List Nat) :=
  let o := hostUtilsReadSignaloidSoCMMIOBufferTx dev
  if o.ret ≠ (kSignaloidSoCConstantsMMIOBufferSizeBytes : Int) then none
  else some o.data

/-- The raw transaction issued by `hostUtilsWriteSignaloidSoCMMIOBuffer`
(C0microSDPlusHostUtils.c:119-128). -/
def hostUtilsWriteSignaloidSoCMMIOBufferTx (dev : Dev) (sourceBuffer : List Nat) :
    WriteOutcome :=
  hostUtilsWriteToC0microSDPlus dev sourceBuffer
    kSignaloidSoCConstantsMMIOBufferOffset

/-- `hostUtilsWriteSignaloidSoCMMIOBuffer`: write the 8192-byte MMIO buffer;
`exit(EXIT_FAILURE)` (modelled as `none`) when the raw transaction result
differs from the requested size; otherwise the device with its new store. -/
def hostUtilsWriteSignaloidSoCMMIOBuffer (dev : Dev) (sourceBuffer : List Nat) :
    Option Dev :=
  let o := hostUtilsWriteSignaloidSoCMMIOBufferTx dev sourceBuffer
  if o.ret ≠ (kSignaloidSoCConstantsMMIOBufferSizeBytes : Int) then none
  else some { dev with store := o.newStore }

/-- The raw transaction issued by `hostUtilsGetSignaloidSoCConfigRegister`
(C0microSDPlusHostUtils.c:130-141): read `sizeof(uint32_t)` bytes at the
config offset. -/
def hostUtilsGetSignaloidSoCConfigRegisterTx (dev : Dev) : ReadOutcome :=
  hostUtilsReadFromC0microSDPlus dev 4 kSignaloidSoCConstantsConfigOffset

/-- `hostUtilsGetSignaloidSoCConfigRegister`: read the config register;
`exit(EXIT_FAILURE)` (modelled as `none`) when the raw transaction result
differs from `sizeof(uint32_t)`; otherwise the `uint32_t` read. -/
def hostUtilsGetSignaloidSoCConfigRegister (dev : Dev) : Option Nat :=
  let o := hostUtilsGetSignaloidSoCConfigRegisterTx dev
  if o.ret ≠ 4 then none else some (decodeLE32 o.data)

/-- The raw transaction issued by `hostUtilsSetSignaloidSoCConfigRegister`
(C0microSDPlusHostUtils.c:143-152): write the 4 bytes of `config` at the
config offset. -/
def hostUtilsSetSignaloidSoCConfigRegisterTx (dev : Dev) (config : Nat) :
    WriteOutcome :=
  hostUtilsWriteToC0microSDPlus dev (encodeLE32 config)
    kSignaloidSoCConstantsConfigOffset

/-- `hostUtilsSetSignaloidSoCConfigRegister`: write the config register;
`exit(EXIT_FAILURE)` (modelled as `none`) when the raw transaction result
differs from `sizeof(uint32_t)`. -/
def hostUtilsSetSignaloidSoCConfigRegister (dev : Dev) (config : Nat) :
    Option Dev :=
  let o := hostUtilsSetSignaloidSoCConfigRegisterTx dev config
  if o.ret ≠ 4 then none else some { dev with store := o.newStore }

/-- The bit extraction performed by
`hostUtilsGetSignaloidSoCConfigRegisterUnpacked`
(C0microSDPlusHostUtils.c:154-167) on the register word it has read:
`*flag = (bool)((reg_val >> i) & 0x1)` for bits 0,1,2,3. -/
def hostUtilsGetSignaloidSoCConfigRegisterUnpackedBits (reg_val : Nat) :
    Bool × Bool × Bool × Bool :=
  (((reg_val >>> 0) &&& 0x1) != 0,
   ((reg_val >>> 1) &&& 0x1) != 0,
   ((reg_val >>> 2) &&& 0x1) != 0,
   ((reg_val >>> 3) &&& 0x1) != 0)

/-- `hostUtilsGetSignaloidSoCConfigRegisterUnpacked`: get the config
register (inheriting its fatal behaviour) and unpack bits 0-3 into the four
flags `(rstn, unlock_bitstream_section, sw_led_enable, sw_led)`. -/
def hostUtilsGetSignaloidSoCConfigRegisterUnpacked (dev : Dev) :
    Option (Bool × Bool × Bool × Bool) :=
  (hostUtilsGetSignaloidSoCConfigRegister dev).map
    hostUtilsGetSignaloidSoCConfigRegisterUnpackedBits

/-- The register word built by
`hostUtilsSetSignaloidSoCConfigRegisterUnpacked`
(C0microSDPlusHostUtils.c:169-184): starting from `reg_val = 0`, each flag
is converted to 0/1, masked with `0x1` and OR-ed into its bit position. -/
def hostUtilsSetSignaloidSoCConfigRegisterUnpackedWord
    (rstn unlock_bitstream_section sw_led_enable sw_led : Bool) : Nat :=
  let reg_val : Nat := 0
  let reg_val := reg_val ||| ((rstn.toNat &&& 0x1) <<< 0)
  let reg_val := reg_val ||| ((unlock_bitstream_section.toNat &&& 0x1) <<< 1)
  let reg_val := reg_val ||| ((sw_led_enable.toNat &&& 0x1) <<< 2)
  let reg_val := reg_val ||| ((sw_led.toNat &&& 0x1) <<< 3)
  reg_val

/-- `hostUtilsSetSignaloidSoCConfigRegisterUnpacked`: pack the four flags
into a register word and set the config register (inheriting its fatal
behaviour). -/
def hostUtilsSetSignaloidSoCConfigRegisterUnpacked (dev : Dev)
    (rstn unlock_bitstream_section sw_led_enable sw_led : Bool) : Option Dev :=
  hostUtilsSetSignaloidSoCConfigRegister dev
    (hostUtilsSetSignaloidSoCConfigRegisterUnpackedWord rstn
      unlock_bitstream_section sw_led_enable sw_led)

/-- The raw transaction issued by `hostUtilsSetSignaloidSoCCommandRegister`
(C0microSDPlusHostUtils.c:186-195): write the 4 bytes of `command` at the
command offset. -/
def hostUtilsSetSignaloidSoCCommandRegisterTx (dev : Dev) (command : Nat) :
    WriteOutcome :=
  hostUtilsWriteToC0microSDPlus dev (encodeLE32 command)
    kSignaloidSoCConstantsCommandOffset

/-- `hostUtilsSetSignaloidSoCCommandRegister`: write the command register;
`exit(EXIT_FAILURE)` (modelled as `none`) when the raw transaction result
differs from `sizeof(uint32_t)`. -/
def hostUtilsSetSignaloidSoCCommandRegister (dev : Dev) (command : Nat) :
    Option Dev :=
  let o := hostUtilsSetSignaloidSoCCommandRegisterTx dev command
  if o.ret ≠ 4 then none else some { dev with store := o.newStore }

/-- The raw transaction issued by `hostUtilsGetSignaloidSoCStatusRegister`
(C0microSDPlusHostUtils.c:197-208): read `sizeof(uint32_t)` bytes at the
status offset. -/
def hostUtilsGetSignaloidSoCStatusRegisterTx (dev : Dev) : ReadOutcome :=
  hostUtilsReadFromC0microSDPlus dev 4 kSignaloidSoCConstantsStatusOffset

/-- `hostUtilsGetSignaloidSoCStatusRegister`: read 4 bytes at the status
offset into a `SignaloidSoCStatus` variable (a plain reinterpretation of
the raw 32-bit value, with no range check); `exit(EXIT_FAILURE)` (modelled
as `none`) when the raw transaction result differs from
`sizeof(uint32_t)`. -/
def hostUtilsGetSignaloidSoCStatusRegister (dev : Dev) :
    Option SignaloidSoCStatus :=
  let o := hostUtilsGetSignaloidSoCStatusRegisterTx dev
  if o.ret ≠ 4 then none else some (decodeLE32 o.data)

/-- The raw transaction issued by
`hostUtilsGetSignaloidSoCBootAddressRegister`
(C0microSDPlusHostUtils.c:210-221). -/
def hostUtilsGetSignaloidSoCBootAddressRegisterTx (dev : Dev) : ReadOutcome :=
  hostUtilsReadFromC0microSDPlus dev 4 kSignaloidSoCConstantsBootAddressOffset

/-- `hostUtilsGetSignaloidSoCBootAddressRegister`: read the boot-address
register; `exit(EXIT_FAILURE)` (modelled as `none`) when the raw
transaction result differs from `sizeof(uint32_t)`. -/
def hostUtilsGetSignaloidSoCBootAddressRegister (dev : Dev) : Option Nat :=
  let o := hostUtilsGetSignaloidSoCBootAddressRegisterTx dev
  if o.ret ≠ 4 then none else some (decodeLE32 o.data)

/-- The raw transaction issued by
`hostUtilsSetSignaloidSoCBootAddressRegister`
(C0microSDPlusHostUtils.c:223-232). -/
def hostUtilsSetSignaloidSoCBootAddressRegisterTx (dev : Dev)
    (bootAddress : Nat) : WriteOutcome :=
  hostUtilsWriteToC0microSDPlus dev (encodeLE32 bootAddress)
    kSignaloidSoCConstantsBootAddressOffset

/-- `hostUtilsSetSignaloidSoCBootAddressRegister`: write the boot-address
register; `exit(EXIT_FAILURE)` (modelled as `none`) when the raw
transaction result differs from `sizeof(uint32_t)`. -/
def hostUtilsSetSignaloidSoCBootAddressRegister (dev : Dev)
    (bootAddress : Nat) : Option Dev :=
  let o := hostUtilsSetSignaloidSoCBootAddressRegisterTx dev bootAddress
  if o.ret ≠ 4 then none else some { dev with store := o.newStore }

/-! ## Helper lemmas -/

/-- Every branch of the raw read echoes its `offset` argument. -/
theorem read_offsetUsed (dev : Dev) (n : Nat) (off : Int) :
    (hostUtilsReadFromC0microSDPlus dev n off).offsetUsed = off := by
  unfold hostUtilsReadFromC0microSDPlus
  repeat' split
  all_goals rfl

/-- Every branch of the raw read echoes its `bufferSize` argument. -/
theorem read_sizeRequested (dev : Dev) (n : Nat) (off : Int) :
    (hostUtilsReadFromC0microSDPlus dev n off).sizeRequested = n := by
  unfold hostUtilsReadFromC0microSDPlus
  repeat' split
  all_goals rfl

/-- Every branch of the raw write echoes its `offset` argument. -/
theorem write_offsetUsed (dev : Dev) (buf : List Nat) (off : Int) :
    (hostUtilsWriteToC0microSDPlus dev buf off).offsetUsed = off := by
  unfold hostUtilsWriteToC0microSDPlus
  repeat' split
  all_goals rfl

/-- Every branch of the raw write echoes the requested size. -/
theorem write_sizeRequested (dev : Dev) (buf : List Nat) (off : Int) :
    (hostUtilsWriteToC0microSDPlus dev buf off).sizeRequested = buf.length := by
  unfold hostUtilsWriteToC0microSDPlus
  repeat' split
  all_goals rfl

/-! ## Claims -/

/-- C2: for all 16 combinations of the four config flags, packing them into
a config-register word (as `hostUtilsSetSignaloidSoCConfigRegisterUnpacked`
does) and then unpacking that word (as
`hostUtilsGetSignaloidSoCConfigRegisterUnpacked` does) yields exactly the
same four booleans. -/
theorem config_unpack_pack_roundtrip
    (rstn unlock_bitstream_section sw_led_enable sw_led : Bool) :
    hostUtilsGetSignaloidSoCConfigRegisterUnpackedBits
      (hostUtilsSetSignaloidSoCConfigRegisterUnpackedWord rstn
        unlock_bitstream_section sw_led_enable sw_led) =
      (rstn, unlock_bitstream_section, sw_led_enable, sw_led) := by
  cases rstn <;> cases unlock_bitstream_section <;> cases sw_led_enable <;>
    cases sw_led <;> rfl

/-- C4: the packed config-register word is always below `2^4`, and every
bit from position 4 up is 0, so a pack-and-set never preserves any reserved
bits of the previous register value. -/
theorem config_pack_reserved_bits_zero
    (rstn unlock_bitstream_section sw_led_enable sw_led : Bool) :
    hostUtilsSetSignaloidSoCConfigRegisterUnpackedWord rstn
      unlock_bitstream_section sw_led_enable sw_led < 2 ^ 4 ∧
    ∀ i : Nat, 4 ≤ i →
      Nat.testBit (hostUtilsSetSignaloidSoCConfigRegisterUnpackedWord rstn
        unlock_bitstream_section sw_led_enable sw_led) i = false := by
  have hlt : hostUtilsSetSignaloidSoCConfigRegisterUnpackedWord rstn
      unlock_bitstream_section sw_led_enable sw_led < 2 ^ 4 := by
    cases rstn <;> cases unlock_bitstream_section <;> cases sw_led_enable <;>
      cases sw_led <;> decide
  refine ⟨hlt, fun i hi => Nat.testBit_eq_false_of_lt ?_⟩
  exact lt_of_lt_of_le hlt (Nat.pow_le_pow_right (by decide) hi)

/-- Witness for C4 at a concrete input: all four flags set, bit 4. -/
theorem config_pack_reserved_bits_zero_witness :
    Nat.testBit (hostUtilsSetSignaloidSoCConfigRegisterUnpackedWord true true
      true true) 4 = false :=
  (config_pack_reserved_bits_zero true true true true).2 4 (by decide)

/-- C9: on every outcome of a raw read or raw write, any file descriptor
the call opened is closed before the call returns. -/
theorem raw_transactions_close_fd (dev : Dev) (bufferSize : Nat)
    (offset : Int) (sourceBuffer : List Nat) :
    ((hostUtilsReadFromC0microSDPlus dev bufferSize offset).fdOpened = true →
      (hostUtilsReadFromC0microSDPlus dev bufferSize offset).fdClosed = true) ∧
    ((hostUtilsWriteToC0microSDPlus dev sourceBuffer offset).fdOpened = true →
      (hostUtilsWriteToC0microSDPlus dev sourceBuffer offset).fdClosed = true) := by
  constructor
  · unfold hostUtilsReadFromC0microSDPlus
    repeat' split
    all_goals intro _h
    all_goals first
      | rfl
      | simp at _h
  · unfold hostUtilsWriteToC0microSDPlus
    repeat' split
    all_goals intro _h
    all_goals first
      | rfl
      | simp at _h

/-- Witness for C9 at a concrete device whose transactions open a fd. -/
theorem raw_transactions_close_fd_witness :
    (hostUtilsReadFromC0microSDPlus ⟨true, false, false, false, []⟩ 4 0).fdClosed
        = true ∧
    (hostUtilsWriteToC0microSDPlus ⟨true, false, false, false, []⟩ [1] 0).fdClosed
        = true :=
  ⟨(raw_transactions_close_fd ⟨true, false, false, false, []⟩ 4 0 [1]).1
      (by decide),
   (raw_transactions_close_fd ⟨true, false, false, false, []⟩ 4 0 [1]).2
      (by decide)⟩

/-- C1 counterexample: on an openable, seekable device whose backing store
is empty, a raw read of 4 bytes transfers fewer bytes than requested (0),
yet returns 0 — a valid byte count — and not the error sentinel -1, so the
claim that every short transfer returns -1 is false. -/
theorem raw_read_short_not_sentinel_counterexample :
    (hostUtilsReadFromC0microSDPlus ⟨true, false, false, false, []⟩ 4 0).ret
        = 0 ∧
    (hostUtilsReadFromC0microSDPlus ⟨true, false, false, false, []⟩ 4 0).ret
        ≠ -1 ∧
    (hostUtilsReadFromC0microSDPlus ⟨true, false, false, false, []⟩ 4 0).ret
        < (4 : Int) := by
  decide

/-- C1 amended: the raw read (and symmetrically the raw write) returns the
error sentinel -1 when the device cannot be opened, when seeking fails, or
when the underlying OS read/write reports an error; a transfer that moves
fewer bytes than requested instead returns that smaller actual byte count
and reports an error. -/
theorem raw_error_sentinel (dev : Dev) (bufferSize : Nat) (offset : Int)
    (sourceBuffer : List Nat) :
    (dev.openable = false →
      (hostUtilsReadFromC0microSDPlus dev bufferSize offset).ret = -1 ∧
      (hostUtilsWriteToC0microSDPlus dev sourceBuffer offset).ret = -1) ∧
    (offset < 0 ∨ dev.seekErr = true →
      (hostUtilsReadFromC0microSDPlus dev bufferSize offset).ret = -1 ∧
      (hostUtilsWriteToC0microSDPlus dev sourceBuffer offset).ret = -1) ∧
    (dev.readErr = true → ¬(offset < 0 ∨ dev.seekErr = true) →
      (hostUtilsReadFromC0microSDPlus dev bufferSize offset).ret = -1) ∧
    (dev.writeErr = true → ¬(offset < 0 ∨ dev.seekErr = true) →
      (hostUtilsWriteToC0microSDPlus dev sourceBuffer offset).ret = -1) ∧
    (dev.openable = true → ¬(offset < 0 ∨ dev.seekErr = true) →
      dev.readErr = false →
      (hostUtilsReadFromC0microSDPlus dev bufferSize offset).ret =
        (((dev.store.drop offset.toNat).take bufferSize).length : Int) ∧
      ((hostUtilsReadFromC0microSDPlus dev bufferSize offset).ret ≠
          (bufferSize : Int) →
        (hostUtilsReadFromC0microSDPlus dev bufferSize offset).errReported
          = true)) := by
  refine ⟨?_, ?_, ?_, ?_, ?_⟩
  · intro h
    simp [hostUtilsReadFromC0microSDPlus, hostUtilsWriteToC0microSDPlus, h]
  · intro h
    rcases h with h | h <;>
      cases hop : dev.openable <;>
        simp [hostUtilsReadFromC0microSDPlus, hostUtilsWriteToC0microSDPlus,
          h, hop]
  · intro h hs
    have hs1 : ¬offset < 0 := fun hlt => hs (Or.inl hlt)
    have hs2 : dev.seekErr = false := by
      cases hq : dev.seekErr
      · rfl
      · exact absurd (Or.inr hq) hs
    cases hop : dev.openable <;>
      simp [hostUtilsReadFromC0microSDPlus, h, hop, hs1, hs2]
  · intro h hs
    have hs1 : ¬offset < 0 := fun hlt => hs (Or.inl hlt)
    have hs2 : dev.seekErr = false := by
      cases hq : dev.seekErr
      · rfl
      · exact absurd (Or.inr hq) hs
    cases hop : dev.openable <;>
      simp [hostUtilsWriteToC0microSDPlus, h, hop, hs1, hs2]
  · intro hop hs hr
    have hs1 : ¬offset < 0 := fun hlt => hs (Or.inl hlt)
    have hs2 : dev.seekErr = false := by
      cases hq : dev.seekErr
      · rfl
      · exact absurd (Or.inr hq) hs
    have hret : (hostUtilsReadFromC0microSDPlus dev bufferSize offset).ret =
        (((dev.store.drop offset.toNat).take bufferSize).length : Int) := by
      simp [hostUtilsReadFromC0microSDPlus, hop, hs1, hs2, hr]
    refine ⟨hret, fun hne => ?_⟩
    have herr :
        (hostUtilsReadFromC0microSDPlus dev bufferSize offset).errReported =
          decide ((((dev.store.drop offset.toNat).take bufferSize).length : Int)
            ≠ (bufferSize : Int)) := by
      simp [hostUtilsReadFromC0microSDPlus, hop, hs1, hs2, hr]
    rw [hret] at hne
    rw [herr, decide_eq_true_eq]
    exact hne

/-- Witness for the amended C1 at a device that cannot be opened. -/
theorem raw_error_sentinel_witness :
    (hostUtilsReadFromC0microSDPlus ⟨false, false, false, false, []⟩ 4 0).ret
        = -1 ∧
    (hostUtilsWriteToC0microSDPlus ⟨false, false, false, false, []⟩ [1] 0).ret
        = -1 :=
  (raw_error_sentinel ⟨false, false, false, false, []⟩ 4 0 [1]).1 rfl

/-- C3: whenever the raw transaction underlying a typed register operation
returns a byte count different from the requested size (including the -1
sentinel), the operation is fatal (`exit(EXIT_FAILURE)`, modelled as
`none`) and produces no return value. -/
theorem register_ops_fatal_on_short_transaction (dev : Dev)
    (sourceBuffer : List Nat) (v : Nat) :
    ((hostUtilsReadSignaloidSoCMMIOBufferTx dev).ret ≠
        (kSignaloidSoCConstantsMMIOBufferSizeBytes : Int) →
      hostUtilsReadSignaloidSoCMMIOBuffer dev = none) ∧
    ((hostUtilsWriteSignaloidSoCMMIOBufferTx dev sourceBuffer).ret ≠
        (kSignaloidSoCConstantsMMIOBufferSizeBytes : Int) →
      hostUtilsWriteSignaloidSoCMMIOBuffer dev sourceBuffer = none) ∧
    ((hostUtilsGetSignaloidSoCConfigRegisterTx dev).ret ≠ 4 →
      hostUtilsGetSignaloidSoCConfigRegister dev = none) ∧
    ((hostUtilsSetSignaloidSoCConfigRegisterTx dev v).ret ≠ 4 →
      hostUtilsSetSignaloidSoCConfigRegister dev v = none) ∧
    ((hostUtilsSetSignaloidSoCCommandRegisterTx dev v).ret ≠ 4 →
      hostUtilsSetSignaloidSoCCommandRegister dev v = none) ∧
    ((hostUtilsGetSignaloidSoCStatusRegisterTx dev).ret ≠ 4 →
      hostUtilsGetSignaloidSoCStatusRegister dev = none) ∧
    ((hostUtilsGetSignaloidSoCBootAddressRegisterTx dev).ret ≠ 4 →
      hostUtilsGetSignaloidSoCBootAddressRegister dev = none) ∧
    ((hostUtilsSetSignaloidSoCBootAddressRegisterTx dev v).ret ≠ 4 →
      hostUtilsSetSignaloidSoCBootAddressRegister dev v = none) := by
  refine ⟨?_, ?_, ?_, ?_, ?_, ?_, ?_, ?_⟩ <;>
    · intro h
      simp [hostUtilsReadSignaloidSoCMMIOBuffer,
        hostUtilsWriteSignaloidSoCMMIOBuffer,
        hostUtilsGetSignaloidSoCConfigRegister,
        hostUtilsSetSignaloidSoCConfigRegister,
        hostUtilsSetSignaloidSoCCommandRegister,
        hostUtilsGetSignaloidSoCStatusRegister,
        hostUtilsGetSignaloidSoCBootAddressRegister,
        hostUtilsSetSignaloidSoCBootAddressRegister, h]

/-- Witness for C3 at a device that cannot be opened, so every raw
transaction returns -1 and the register operations are fatal. -/
theorem register_ops_fatal_witness :
    hostUtilsGetSignaloidSoCConfigRegister ⟨false, false, false, false, []⟩
        = none ∧
    hostUtilsGetSignaloidSoCStatusRegister ⟨false, false, false, false, []⟩
        = none ∧
    hostUtilsSetSignaloidSoCCommandRegister ⟨false, false, false, false, []⟩ 1
        = none :=
  ⟨(register_ops_fatal_on_short_transaction ⟨false, false, false, false, []⟩
      [] 1).2.2.1 (by decide),
   (register_ops_fatal_on_short_transaction ⟨false, false, false, false, []⟩
      [] 1).2.2.2.2.2.1 (by decide),
   (register_ops_fatal_on_short_transaction ⟨false, false, false, false, []⟩
      [] 1).2.2.2.2.1 (by decide)⟩

/-- Reading back `buf.length` bytes at position `k` after a POSIX write of
`buf` at position `k` yields exactly `buf`. -/
theorem writeBytesAt_readback (s : List Nat) (k : Nat) (buf : List Nat) :
    ((writeBytesAt s k buf).drop k).take buf.length = buf := by
  unfold writeBytesAt
  have hlen : (s.take k ++ List.replicate (k - s.length) 0).length = k := by
    simp [List.length_take]
    omega
  rw [List.append_assoc, List.drop_left' hlen, List.take_left' rfl]

/-- C5: on an openable, seekable, error-free device, a raw write at a
non-negative offset followed by a raw read of the same size at the same
offset returns exactly the bytes just written. -/
theorem write_read_roundtrip (dev : Dev) (sourceBuffer : List Nat)
    (offset : Int) (hopen : dev.openable = true) (hseek : dev.seekErr = false)
    (hw : dev.writeErr = false) (hr : dev.readErr = false)
    (hoff : 0 ≤ offset) :
    (hostUtilsWriteToC0microSDPlus dev sourceBuffer offset).ret =
      (sourceBuffer.length : Int) ∧
    (hostUtilsReadFromC0microSDPlus
        { dev with
          store := (hostUtilsWriteToC0microSDPlus dev sourceBuffer
            offset).newStore }
        sourceBuffer.length offset).data = sourceBuffer ∧
    (hostUtilsReadFromC0microSDPlus
        { dev with
          store := (hostUtilsWriteToC0microSDPlus dev sourceBuffer
            offset).newStore }
        sourceBuffer.length offset).ret = (sourceBuffer.length : Int) := by
  have hnot : ¬offset < 0 := not_lt.mpr hoff
  have hw' : hostUtilsWriteToC0microSDPlus dev sourceBuffer offset =
      { ret := (sourceBuffer.length : Int)
        newStore := writeBytesAt dev.store offset.toNat sourceBuffer
        offsetUsed := offset, sizeRequested := sourceBuffer.length
        fdOpened := true, fdClosed := true, errReported := false } := by
    simp [hostUtilsWriteToC0microSDPlus, hopen, hseek, hw, hnot]
  have hdata : ((writeBytesAt dev.store offset.toNat
      sourceBuffer).drop offset.toNat).take sourceBuffer.length =
      sourceBuffer :=
    writeBytesAt_readback dev.store offset.toNat sourceBuffer
  refine ⟨by rw [hw'], ?_, ?_⟩ <;>
    simp [hostUtilsReadFromC0microSDPlus, hw', hopen, hseek, hr, hnot, hdata]

/-- Witness for C5: writing [1, 2, 3] at offset 1 over the store [9, 9]
and reading 3 bytes back at offset 1 returns [1, 2, 3]. -/
theorem write_read_roundtrip_witness :
    (hostUtilsReadFromC0microSDPlus
        { (⟨true, false, false, false, [9, 9]⟩ : Dev) with
          store := (hostUtilsWriteToC0microSDPlus
            ⟨true, false, false, false, [9, 9]⟩ [1, 2, 3] 1).newStore }
        3 1).data = [1, 2, 3] :=
  (write_read_roundtrip ⟨true, false, false, false, [9, 9]⟩ [1, 2, 3] 1
    rfl rfl rfl rfl (by decide)).2.1

/-- C6: when the backing store holds fewer than `bufferSize` bytes past the
read position, the raw read returns the smaller, non-negative number of
bytes actually read — strictly fewer than requested — and reports an
error (`perror`). -/
theorem read_short_returns_actual_count (dev : Dev) (bufferSize : Nat)
    (offset : Int) (hopen : dev.openable = true)
    (hseek : dev.seekErr = false) (hr : dev.readErr = false)
    (hoff : 0 ≤ offset)
    (hshort : dev.store.length - offset.toNat < bufferSize) :
    (hostUtilsReadFromC0microSDPlus dev bufferSize offset).ret =
      ((dev.store.length - offset.toNat : Nat) : Int) ∧
    (hostUtilsReadFromC0microSDPlus dev bufferSize offset).ret <
      (bufferSize : Int) ∧
    0 ≤ (hostUtilsReadFromC0microSDPlus dev bufferSize offset).ret ∧
    (hostUtilsReadFromC0microSDPlus dev bufferSize offset).errReported
      = true := by
  have hnot : ¬offset < 0 := not_lt.mpr hoff
  have hlen : ((dev.store.drop offset.toNat).take bufferSize).length =
      dev.store.length - offset.toNat := by
    simp [List.length_take]
    omega
  have hret : (hostUtilsReadFromC0microSDPlus dev bufferSize offset).ret =
      ((dev.store.length - offset.toNat : Nat) : Int) := by
    simp [hostUtilsReadFromC0microSDPlus, hopen, hseek, hr, hnot, hlen]
  have herr :
      (hostUtilsReadFromC0microSDPlus dev bufferSize offset).errReported =
        decide (((dev.store.length - offset.toNat : Nat) : Int) ≠
          (bufferSize : Int)) := by
    simp [hostUtilsReadFromC0microSDPlus, hopen, hseek, hr, hnot, hlen]
  refine ⟨hret, ?_, ?_, ?_⟩
  · rw [hret]
    exact_mod_cast hshort
  · rw [hret]
    exact Int.natCast_nonneg _
  · rw [herr, decide_eq_true_eq]
    intro heq
    have : dev.store.length - offset.toNat = bufferSize := by exact_mod_cast heq
    omega

/-- Witness for C6: a 4-byte read of a 2-byte store returns 2 and reports
an error. -/
theorem read_short_returns_actual_count_witness :
    (hostUtilsReadFromC0microSDPlus ⟨true, false, false, false, [5, 6]⟩ 4 0).ret
        = 2 ∧
    (hostUtilsReadFromC0microSDPlus ⟨true, false, false, false, [5, 6]⟩ 4 0
        ).errReported = true :=
  ⟨(read_short_returns_actual_count ⟨true, false, false, false, [5, 6]⟩ 4 0
      rfl rfl rfl (by decide) (by decide)).1,
   (read_short_returns_actual_count ⟨true, false, false, false, [5, 6]⟩ 4 0
      rfl rfl rfl (by decide) (by decide)).2.2.2⟩

/-- Evaluation of a successful raw read on an openable, error-free device
at a non-negative offset. -/
theorem read_ok_eval (s : List Nat) (n : Nat) (off : Int)
    (hoff : ¬off < 0) :
    hostUtilsReadFromC0microSDPlus ⟨true, false, false, false, s⟩ n off =
      { ret := (((s.drop off.toNat).take n).length : Int)
        data := (s.drop off.toNat).take n
        offsetUsed := off, sizeRequested := n
        fdOpened := true, fdClosed := true
        errReported :=
          decide ((((s.drop off.toNat).take n).length : Int) ≠ (n : Int)) } := by
  simp only [hostUtilsReadFromC0microSDPlus, Bool.not_true, Bool.false_eq_true,
    if_false, Bool.or_false, decide_eq_true_eq, if_neg hoff]

theorem getStatusRegister_seeded (pad tail : List Nat) (b0 b1 b2 b3 : Nat)
    (hpad : pad.length = 0x0100000C) :
    hostUtilsGetSignaloidSoCStatusRegister
      ⟨true, false, false, false, pad ++ [b0, b1, b2, b3] ++ tail⟩ =
      some (b0 + 256 * b1 + 65536 * b2 + 16777216 * b3) := by
  have hread := read_ok_eval (pad ++ [b0, b1, b2, b3] ++ tail) 4
    kSignaloidSoCConstantsStatusOffset (by decide)
  have hdata : (((pad ++ [b0, b1, b2, b3] ++ tail).drop
      kSignaloidSoCConstantsStatusOffset.toNat).take 4) = [b0, b1, b2, b3] := by
    have ht : kSignaloidSoCConstantsStatusOffset.toNat = 16777228 := rfl
    rw [ht, List.append_assoc]
    rw [List.drop_left' (by rw [hpad])]
    exact List.take_left' rfl
  rw [hdata] at hread
  unfold hostUtilsGetSignaloidSoCStatusRegister
    hostUtilsGetSignaloidSoCStatusRegisterTx
  rw [hread]
  norm_num [decodeLE32]

/-- C7: if the 4 bytes at the status-register offset of the backing store
encode the 32-bit value 2, the get-status-register operation succeeds and
returns `kSignaloidSoCStatusDone`. -/
theorem getStatusRegister_done :
    hostUtilsGetSignaloidSoCStatusRegister
      ⟨true, false, false, false,
        List.replicate 0x0100000C 0 ++ [2, 0, 0, 0]⟩ =
      some kSignaloidSoCStatusDone := by
  have h := getStatusRegister_seeded (List.replicate 0x0100000C 0) [] 2 0 0 0
    (List.length_replicate 0x0100000C 0)
  rw [List.append_nil] at h
  rw [h]
  norm_num [kSignaloidSoCStatusDone]

/-- C10: a successful get-status-register returns whatever 32-bit value is
stored at the status-register offset, unchanged — including values outside
{0, 1, 2, 3} — with no range validation. -/
theorem getStatusRegister_no_range_check (v : Nat) (pad tail : List Nat)
    (hv : v < 4294967296) (hpad : pad.length = 0x0100000C) :
    hostUtilsGetSignaloidSoCStatusRegister
      ⟨true, false, false, false, pad ++ encodeLE32 v ++ tail⟩ = some v := by
  have h := getStatusRegister_seeded pad tail (v % 256) (v / 256 % 256)
    (v / 65536 % 256) (v / 16777216 % 256) hpad
  have henc : encodeLE32 v =
      [v % 256, v / 256 % 256, v / 65536 % 256, v / 16777216 % 256] := rfl
  rw [henc, h]
  congr 1
  omega

/-- Witness for C10 at the out-of-range status value 7. -/
theorem getStatusRegister_no_range_check_witness :
    hostUtilsGetSignaloidSoCStatusRegister
      ⟨true, false, false, false,
        List.replicate 0x0100000C 0 ++ encodeLE32 7 ++ []⟩ = some 7 :=
  getStatusRegister_no_range_check 7 (List.replicate 0x0100000C 0) []
    (by norm_num) (List.length_replicate 0x0100000C 0)

/-- C8: the address-map constants and status enumeration equal the spec's
external-interface values, and each typed register operation issues its raw
transaction at the corresponding offset (the MMIO buffer operations with
size 8192). -/
theorem address_map_matches :
    (kSignaloidSoCConstantsCommandOffset = 0x01000000 ∧
     kSignaloidSoCConstantsConfigOffset = 0x01000004 ∧
     kSignaloidSoCConstantsBootAddressOffset = 0x01000008 ∧
     kSignaloidSoCConstantsStatusOffset = 0x0100000C ∧
     kSignaloidSoCConstantsMMIOBufferOffset = 0x01004000 ∧
     kSignaloidSoCConstantsMMIOBufferSizeBytes = 8192 ∧
     kSignaloidSoCStatusWaitingForCommand = 0 ∧
     kSignaloidSoCStatusCalculating = 1 ∧
     kSignaloidSoCStatusDone = 2 ∧
     kSignaloidSoCStatusInvalidCommand = 3) ∧
    ∀ (dev : Dev) (sourceBuffer : List Nat) (v : Nat),
      (hostUtilsSetSignaloidSoCCommandRegisterTx dev v).offsetUsed
          = 0x01000000 ∧
      (hostUtilsGetSignaloidSoCConfigRegisterTx dev).offsetUsed
          = 0x01000004 ∧
      (hostUtilsSetSignaloidSoCConfigRegisterTx dev v).offsetUsed
          = 0x01000004 ∧
      (hostUtilsGetSignaloidSoCBootAddressRegisterTx dev).offsetUsed
          = 0x01000008 ∧
      (hostUtilsSetSignaloidSoCBootAddressRegisterTx dev v).offsetUsed
          = 0x01000008 ∧
      (hostUtilsGetSignaloidSoCStatusRegisterTx dev).offsetUsed
          = 0x0100000C ∧
      (hostUtilsReadSignaloidSoCMMIOBufferTx dev).offsetUsed = 0x01004000 ∧
      (hostUtilsReadSignaloidSoCMMIOBufferTx dev).sizeRequested = 8192 ∧
      (hostUtilsWriteSignaloidSoCMMIOBufferTx dev sourceBuffer).offsetUsed
          = 0x01004000 := by
  refine ⟨⟨rfl, rfl, rfl, rfl, rfl, rfl, rfl, rfl, rfl, rfl⟩, ?_⟩
  intro dev sourceBuffer v
  simp [hostUtilsSetSignaloidSoCCommandRegisterTx,
    hostUtilsGetSignaloidSoCConfigRegisterTx,
    hostUtilsSetSignaloidSoCConfigRegisterTx,
    hostUtilsGetSignaloidSoCBootAddressRegisterTx,
    hostUtilsSetSignaloidSoCBootAddressRegisterTx,
    hostUtilsGetSignaloidSoCStatusRegisterTx,
    hostUtilsReadSignaloidSoCMMIOBufferTx,
    hostUtilsWriteSignaloidSoCMMIOBufferTx,
    read_offsetUsed, read_sizeRequested, write_offsetUsed,
    kSignaloidSoCConstantsCommandOffset, kSignaloidSoCConstantsConfigOffset,
    kSignaloidSoCConstantsBootAddressOffset,
    kSignaloidSoCConstantsStatusOffset, kSignaloidSoCConstantsMMIOBufferOffset,
    kSignaloidSoCConstantsMMIOBufferSizeBytes]

end C0microSDPlus
